import Mathlib

/-!
Verification of the awesome-assistant file-upload system.

The first half embeds the client-side authentication module
(`useAuth` composable) and the environment validator
(`validateEnv.js`) from the frontend sources.

The backend (Rust, `main.rs` / `auth.rs` / `storage`) is present in the
repository only through its README; the components it implements —
Identity Verifier, User Directory, Session Credential Service, File
Metadata Store, Authorization Gateway — are modelled from the spec,
as marked on each definition.
-/

/-! ## Client model (from the useAuth composable) -/

/-- The user object returned by the backend and held by the client. -/
structure UserInfo where
  id : Nat
  name : String
  email : String
deriving DecidableEq

/-- The client-held auth state: the reactive refs `authToken`,
`currentUser`, `isAuthenticated`, `isLoading`, `authError`, plus the
persisted localStorage entry under the key `authToken`
(field `storedAuthToken`). -/
structure ClientState where
  authToken : Option String
  currentUser : Option UserInfo
  isAuthenticated : Bool
  isLoading : Bool
  authError : String
  storedAuthToken : Option String
deriving DecidableEq

/-- An HTTP request emitted by the client; the body is a list of
field-name / value pairs of a JSON object. -/
structure HttpRequest where
  method : String
  path : String
  body : List (String × String)
deriving DecidableEq

/-- The JSON body of a login response as the client reads it:
`success`, `token`, `user`, and an optional `message`. -/
structure LoginData where
  success : Bool
  token : String
  user : UserInfo
  message : Option String
deriving DecidableEq

/-- Outcome of the awaited POST: either a response body, or a thrown
HTTP/network error (the catch branch). -/
inductive LoginOutcome where
  | ok (data : LoginData)
  | httpError
deriving DecidableEq

/-- JavaScript `a || b` on an optional string: the default is taken
when the value is absent or the empty string. -/
def jsOrString (v : Option String) (dflt : String) : String :=
  match v with
  | some s => if s = "" then dflt else s
  | none => dflt

/-- Embedding of `handleCredentialResponse`: sets `isLoading` and
clears `authError`, posts the Google credential to `/login` as the
single body field `google_token`, then updates the state from the
result: on `success` it stores token and user (also in localStorage),
otherwise records an error message; `finally` clears `isLoading`.
Returns the request sent together with the final state. -/
def handleCredentialResponse (s : ClientState) (credential : String)
    (outcome : LoginOutcome) : HttpRequest × ClientState :=
  let s1 : ClientState := { s with isLoading := true, authError := "" }
  let req : HttpRequest :=
    { method := "POST", path := "/login", body := [("google_token", credential)] }
  let s2 : ClientState :=
    match outcome with
    | .ok data =>
      if data.success then
        { s1 with authToken := some data.token,
                  currentUser := some data.user,
                  isAuthenticated := true,
                  storedAuthToken := some data.token }
      else
        { s1 with authError := jsOrString data.message "Login failed" }
    | .httpError =>
        { s1 with authError := "Login failed. Please try again." }
  (req, { s2 with isLoading := false })

/-- The browser request triggered by window.location.reload at the
end of `logout`: an unauthenticated GET of the current page, with no
body and no credential field — it is a navigation, not an axios call,
so the bearer-token request interceptor never touches it. -/
def pageReload : HttpRequest := { method := "GET", path := "/", body := [] }

/-- Embedding of `logout`: clears the token, the user, the
authenticated flag and the error, removes the localStorage entry, and
then refreshes the page via window.location.reload. The second
component lists the requests the function triggers: no axios call
occurs in the source, but the reload makes the browser issue the
plain page GET. -/
def logout (s : ClientState) : ClientState × List HttpRequest :=
  ({ s with authToken := none,
            currentUser := none,
            isAuthenticated := false,
            authError := "",
            storedAuthToken := none }, [pageReload])

/-- The required environment variables of `validateEnv.js`. -/
def requiredEnvVars : List String := ["VITE_API_BASE_URL"]

/-- The optional environment variables with their defaults. -/
def optionalEnvVars : List (String × String) :=
  [("VITE_APP_TITLE", "Awesome Assistant"), ("VITE_APP_ENV", "development")]

/-- JavaScript truthiness of an environment value: absent and the
empty string are falsy. -/
def truthy : Option String → Bool
  | none => false
  | some s => !(s = "")

/-- Embedding of `validateEnvironment`: collects the required
variables whose value is falsy and throws an Error naming them when
any is missing; otherwise returns normally (the optional-variable loop
only emits console warnings and touches no state). -/
def validateEnvironment (env : String → Option String) : Except String Unit :=
  let missing := requiredEnvVars.filter (fun key => ! truthy (env key))
  if missing.length > 0 then
    .error ("Missing required environment variables: " ++ String.intercalate ", " missing)
  else
    .ok ()

/-! ## Backend model

Modelled from the spec: the Rust backend sources (`main.rs`,
`auth.rs`, the storage module) are not in the repository snapshot;
only their README is. The definitions below follow the component
contracts of the spec. -/

/-- Modelled from the spec: the backend error taxonomy of section 7. -/
inductive Err where
  | invalidAssertion
  | providerUnavailable
  | storeUnavailable
  | invalidToken
  | expiredToken
  | unauthorized
  | forbidden
  | notFound
  | storageFailure
deriving DecidableEq

/-! ### Session Credential Service -/

/-- Modelled from the spec: the token payload as a byte sequence
(bytes abstracted to naturals). -/
abbrev Payload := List Nat

/-- Modelled from the spec: serialize the claims
subject, issued_at, expires_at into payload bytes. -/
def encodePayload (subject issued_at expires_at : Nat) : Payload :=
  [subject, issued_at, expires_at]

/-- Modelled from the spec: parse payload bytes back into the claims;
fails on malformed payloads. -/
def decodePayload : Payload → Option (Nat × Nat × Nat)
  | [s, i, e] => some (s, i, e)
  | _ => none

/-- Modelled from the spec: the keyed signature over the payload. The
MAC is idealized as an injective keyed function, so distinct payloads
never collide under the same key. -/
def mac (key : Nat) (p : Payload) : List Nat := key :: p

/-- Modelled from the spec: a session token is a payload together with
its signature. -/
structure Token where
  payload : Payload
  sig : List Nat
deriving DecidableEq

/-- Modelled from the spec: `issue(userId)` signs the claims
subject = userId, issued_at = now, expires_at = now + TTL. -/
def issue (key ttl userId now : Nat) : Token :=
  let p := encodePayload userId now (now + ttl)
  { payload := p, sig := mac key p }

/-- Modelled from the spec: `validate(token)` recomputes the
signature and rejects mismatches as `InvalidToken`, rejects expired
tokens (expires_at not in the future) as `ExpiredToken`, and
otherwise returns the subject. -/
def validate (key : Nat) (t : Token) (now : Nat) : Except Err Nat :=
  if t.sig = mac key t.payload then
    match decodePayload t.payload with
    | some (s, _, e) => if now < e then .ok s else .error .expiredToken
    | none => .error .invalidToken
  else
    .error .invalidToken

/-! ### User Directory -/

/-- The User record of the data model (matches the users table of the
backend README: id, name, email, third_party_id with third_party_id
unique). -/
structure User where
  id : Nat
  name : String
  email : String
  third_party_id : String
deriving DecidableEq

/-- Modelled from the spec: the User Directory as a table of users
with a next fresh id. -/
structure Directory where
  users : List User
  nextId : Nat
deriving DecidableEq

/-- Modelled from the spec: look a user up by third_party_id. -/
def findUser (d : Directory) (subject : String) : Option User :=
  d.users.find? (fun u => u.third_party_id = subject)

/-- Modelled from the spec: `findOrCreate(subject, name, email)`
returns the existing user for the subject, or inserts a fresh one.
The uniqueness constraint on third_party_id serializes concurrent
inserts, so each effective database step is one such call. -/
def findOrCreate (d : Directory) (subject name email : String) :
    Directory × User :=
  match findUser d subject with
  | some u => (d, u)
  | none =>
    let u : User :=
      { id := d.nextId, name := name, email := email, third_party_id := subject }
    ({ users := d.users ++ [u], nextId := d.nextId + 1 }, u)

/-- Modelled from the spec: a batch of concurrent first-time logins
with the same subject, serialized by the uniqueness constraint into
some order; each list element carries the name and email one caller
presents. Returns the final directory and the user each caller got. -/
def runLogins (d : Directory) (subject : String)
    (reqs : List (String × String)) : Directory × List User :=
  match reqs with
  | [] => (d, [])
  | (n, e) :: rest =>
    let p1 := findOrCreate d subject n e
    let p2 := runLogins p1.1 subject rest
    (p2.1, p1.2 :: p2.2)

/-! ### Identity Verifier and login -/

/-- Modelled from the spec: the profile the verifier extracts from a
valid assertion. -/
structure Profile where
  subject : String
  name : String
  email : String
deriving DecidableEq

/-- Modelled from the spec: a third-party identity assertion; the
cryptographic integrity check is abstracted into the boolean
`sigValid`, alongside the audience claim and its expiry instant. -/
structure Assertion where
  subject : String
  name : String
  email : String
  audience : String
  expires_at : Nat
  sigValid : Bool
deriving DecidableEq

/-- Modelled from the spec: `verify(assertion)` fails with
`InvalidAssertion` on signature mismatch, audience mismatch, or
expiry, and otherwise extracts the profile. -/
def verify (deployAud : String) (now : Nat) (a : Assertion) :
    Except Err Profile :=
  if a.sigValid = false then .error .invalidAssertion
  else if a.audience ≠ deployAud then .error .invalidAssertion
  else if a.expires_at ≤ now then .error .invalidAssertion
  else .ok { subject := a.subject, name := a.name, email := a.email }

/-- Modelled from the spec: the login flow of the Authorization
Gateway — verify the assertion, findOrCreate the user, issue a token.
The directory is returned unchanged when any sub-step fails. -/
def loginGateway (deployAud : String) (now key ttl : Nat)
    (d : Directory) (a : Assertion) :
    Directory × Except Err (Token × User) :=
  match verify deployAud now a with
  | .error e => (d, .error e)
  | .ok prof =>
    let p := findOrCreate d prof.subject prof.name prof.email
    (p.1, .ok (issue key ttl p.2.id now, p.2))

/-! ### File Metadata Store and Object Storage Gateway -/

/-- The FileRecord of the data model. -/
structure FileRecord where
  id : Nat
  owner_id : Nat
  storage_key : String
  filename : String
  size : Nat
  content_type : String
  upload_time : Nat
deriving DecidableEq

/-- Modelled from the spec: the File Metadata Store as a table of
records with a next fresh id. -/
structure MetaStore where
  records : List FileRecord
  nextId : Nat
deriving DecidableEq

/-- The descriptive metadata supplied at upload time. -/
structure FileMeta where
  filename : String
  size : Nat
  content_type : String
  upload_time : Nat
deriving DecidableEq

/-- Modelled from the spec: `create(ownerId, storageKey, metadata)`
inserts a fresh FileRecord owned by the given user. -/
def createRecord (m : MetaStore) (ownerId : Nat) (key : String)
    (md : FileMeta) : MetaStore × FileRecord :=
  let r : FileRecord :=
    { id := m.nextId, owner_id := ownerId, storage_key := key,
      filename := md.filename, size := md.size,
      content_type := md.content_type, upload_time := md.upload_time }
  ({ records := m.records ++ [r], nextId := m.nextId + 1 }, r)

/-- Modelled from the spec: `listByOwner` is a hard filter on
owner_id. -/
def listByOwner (m : MetaStore) (ownerId : Nat) : List FileRecord :=
  m.records.filter (fun r => r.owner_id = ownerId)

/-- Modelled from the spec: `getById` returns the record regardless
of owner; ownership is enforced by the gateway. -/
def getById (m : MetaStore) (fid : Nat) : Option FileRecord :=
  m.records.find? (fun r => r.id = fid)

/-- Modelled from the spec: the Object Storage Gateway key space,
a map from storage keys to blobs (bytes abstracted to naturals). -/
structure Storage where
  blobs : List (String × List Nat)
deriving DecidableEq

/-- Modelled from the spec: `put(key, bytes)`. -/
def putBlob (st : Storage) (key : String) (bytes : List Nat) : Storage :=
  { blobs := (key, bytes) :: st.blobs }

/-- Modelled from the spec: `get(key)`. -/
def getBlob (st : Storage) (key : String) : Option (List Nat) :=
  match st.blobs.find? (fun kv => kv.1 = key) with
  | some kv => some kv.2
  | none => none

/-- Modelled from the spec: `delete(key)`. -/
def deleteBlob (st : Storage) (key : String) : Storage :=
  { blobs := st.blobs.filter (fun kv => kv.1 ≠ key) }

/-- Modelled from the spec: the Download operation of the gateway —
resolve the record, fail with `Forbidden` when the owner differs from
the authenticated user, otherwise fetch the blob. -/
def download (st : Storage) (m : MetaStore) (user : User) (fid : Nat) :
    Except Err (List Nat × FileRecord) :=
  match getById m fid with
  | none => .error .notFound
  | some r =>
    if r.owner_id = user.id then
      match getBlob st r.storage_key with
      | some bytes => .ok (bytes, r)
      | none => .error .storageFailure
    else
      .error .forbidden

/-- Modelled from the spec: the Upload operation on the success path —
write the blob under a fresh key, then record the metadata with the
authenticated user as owner. -/
def upload (st : Storage) (m : MetaStore) (user : User) (key : String)
    (bytes : List Nat) (md : FileMeta) : Storage × MetaStore × FileRecord :=
  let st1 := putBlob st key bytes
  let p := createRecord m user.id key md
  (st1, p.1, p.2)

/-- The outcome of an upload under injected failures: final storage
and metadata states, the result reported to the caller, and the keys
logged for offline orphan reconciliation. -/
structure UploadOutcome where
  storage : Storage
  meta : MetaStore
  result : Except Err FileRecord
  orphansLogged : List String

/-- Modelled from the spec: the Upload flow where the storage write
succeeds but the metadata create may fail (`metaCreateFails`), and
the compensating delete may itself fail (`deleteFails`): on metadata
failure the error is reported, the blob delete is attempted, and a
failed delete logs the orphan instead of dropping it silently. -/
def uploadWithMetaFailure (st : Storage) (m : MetaStore) (user : User)
    (key : String) (bytes : List Nat) (md : FileMeta)
    (metaCreateFails deleteFails : Bool) : UploadOutcome :=
  let st1 := putBlob st key bytes
  if metaCreateFails then
    if deleteFails then
      { storage := st1, meta := m, result := .error .storeUnavailable,
        orphansLogged := [key] }
    else
      { storage := deleteBlob st1 key, meta := m,
        result := .error .storeUnavailable, orphansLogged := [] }
  else
    let p := createRecord m user.id key md
    { storage := st1, meta := p.1, result := .ok p.2, orphansLogged := [] }

/-! ## Helper lemmas -/

/-- A token issued with key, ttl, subject and issue time validates to
its subject at any instant before expiry. -/
theorem validate_issue_of_lt (key ttl uid iat now : Nat)
    (h : now < iat + ttl) :
    validate key (issue key ttl uid iat) now = .ok uid := by
  simp [validate, issue, mac, encodePayload, decodePayload, h]

/-- Records of the metadata store that match an owner filter carry
that owner id. -/
theorem owner_of_mem_listByOwner (m : MetaStore) (oid : Nat)
    (r : FileRecord) (hr : r ∈ listByOwner m oid) : r.owner_id = oid := by
  have h := List.mem_filter.mp hr
  simpa using h.2

/-- Deleting a key from object storage makes `get` of that key fail. -/
theorem getBlob_delete (st : Storage) (key : String) :
    getBlob (deleteBlob st key) key = none := by
  have h : (deleteBlob st key).blobs.find? (fun kv => kv.1 = key) = none := by
    apply List.find?_eq_none.mpr
    intro kv hkv
    have h2 := (List.mem_filter.mp hkv).2
    simpa using h2
  simp [getBlob, h]

/-- Once the subject resolves in the directory, further findOrCreate
calls change nothing and every caller receives that same user. -/
theorem runLogins_of_found (d : Directory) (subject : String) (u : User)
    (reqs : List (String × String)) (h : findUser d subject = some u) :
    runLogins d subject reqs = (d, reqs.map fun _ => u) := by
  induction reqs with
  | nil => simp [runLogins]
  | cons a rest ih =>
    obtain ⟨n, e⟩ := a
    simp [runLogins, findOrCreate, h, ih]

/-! ## Claim theorems -/

/-- C2: for every userId, validating a token issued for it returns the
userId at any instant strictly before expires_at = issued_at + TTL,
returns ExpiredToken once the clock has passed expires_at, and returns
InvalidToken for any token whose payload or signature differs from the
issued one (in particular for any single altered byte). -/
theorem validate_issue_spec (key ttl uid iat : Nat) :
    (∀ now, now < iat + ttl →
      validate key (issue key ttl uid iat) now = .ok uid) ∧
    (∀ now, iat + ttl < now →
      validate key (issue key ttl uid iat) now = .error .expiredToken) ∧
    (∀ p now, p ≠ (issue key ttl uid iat).payload →
      validate key { payload := p, sig := (issue key ttl uid iat).sig } now
        = .error .invalidToken) ∧
    (∀ sg now, sg ≠ (issue key ttl uid iat).sig →
      validate key { payload := (issue key ttl uid iat).payload, sig := sg } now
        = .error .invalidToken) := by
  refine ⟨fun now h => validate_issue_of_lt key ttl uid iat now h, ?_, ?_, ?_⟩
  · intro now h
    have hnot : ¬ (now < iat + ttl) := by omega
    simp [validate, issue, mac, encodePayload, decodePayload, hnot]
  · intro p now hp
    have hne : encodePayload uid iat (iat + ttl) ≠ p := fun h => hp h.symm
    simp [validate, issue, mac, encodePayload]
    intro hcontra
    exact absurd hcontra.symm hp
  · intro sg now hs
    have : sg ≠ mac key (issue key ttl uid iat).payload := by
      simpa [issue] using hs
    simp [validate, issue, mac, encodePayload] at this ⊢
    simp [this]

/-- Witness for C2 at key 1, ttl 10, subject 7, issued at 0. -/
theorem validate_issue_spec_witness :
    validate 1 (issue 1 10 7 0) 5 = .ok 7 ∧
    validate 1 (issue 1 10 7 0) 11 = .error .expiredToken ∧
    validate 1 { payload := [9], sig := (issue 1 10 7 0).sig } 5
      = .error .invalidToken ∧
    validate 1 { payload := (issue 1 10 7 0).payload, sig := [9] } 5
      = .error .invalidToken := by
  have h := validate_issue_spec 1 10 7 0
  exact ⟨h.1 5 (by decide), h.2.1 11 (by decide),
         h.2.2.1 [9] 5 (by decide), h.2.2.2 [9] 5 (by decide)⟩

/-- C1: for distinct users A and B, `listByOwner` on the id of A
returns only records owned by A, and a Download authenticated as A of
any record owned by B fails with Forbidden, so A can reach neither the
content nor the metadata of B through these operations. -/
theorem owner_isolation (st : Storage) (m : MetaStore) (A B : User)
    (hAB : A.id ≠ B.id) :
    (∀ r ∈ listByOwner m A.id, r.owner_id = A.id) ∧
    (∀ fid r, getById m fid = some r → r.owner_id = B.id →
      download st m A fid = .error .forbidden) := by
  refine ⟨fun r hr => owner_of_mem_listByOwner m A.id r hr, ?_⟩
  intro fid r hget howner
  have hne : ¬ (r.owner_id = A.id) := by
    rw [howner]
    exact fun h => hAB h.symm
  simp [download, hget, hne]

/-- Witness for C1: user A (id 1) downloading the record of B (id 2)
is Forbidden. -/
theorem owner_isolation_witness :
    download { blobs := [("k", [1, 2])] }
      { records := [{ id := 1, owner_id := 2, storage_key := "k",
                      filename := "f.txt", size := 2, content_type := "text",
                      upload_time := 0 }], nextId := 2 }
      { id := 1, name := "A", email := "a@x", third_party_id := "ga" } 1
      = .error .forbidden := by
  have h := owner_isolation { blobs := [("k", [1, 2])] }
    { records := [{ id := 1, owner_id := 2, storage_key := "k",
                    filename := "f.txt", size := 2, content_type := "text",
                    upload_time := 0 }], nextId := 2 }
    { id := 1, name := "A", email := "a@x", third_party_id := "ga" }
    { id := 2, name := "B", email := "b@x", third_party_id := "gb" }
    (by decide)
  exact h.2 1
    { id := 1, owner_id := 2, storage_key := "k", filename := "f.txt",
      size := 2, content_type := "text", upload_time := 0 }
    (by decide) (by decide)

/-- C3: for any batch of concurrent findOrCreate invocations with the
same third_party_id, serialized in any order by the uniqueness
constraint, starting from a directory without that subject: exactly
one User is created (one matching row, total size grows by one), no
invocation fails, and every invocation resolves to the same fresh id. -/
theorem findOrCreate_concurrent (d : Directory) (subject : String)
    (reqs : List (String × String)) (hnone : findUser d subject = none)
    (hne : reqs ≠ []) :
    ((runLogins d subject reqs).1.users.filter
        (fun u => u.third_party_id = subject)).length = 1 ∧
    (runLogins d subject reqs).1.users.length = d.users.length + 1 ∧
    ∀ u ∈ (runLogins d subject reqs).2, u.id = d.nextId := by
  cases reqs with
  | nil => exact absurd rfl hne
  | cons a rest =>
    obtain ⟨n, e⟩ := a
    have hfc : findOrCreate d subject n e =
        ({ users := d.users ++
            [{ id := d.nextId, name := n, email := e, third_party_id := subject }],
           nextId := d.nextId + 1 },
         { id := d.nextId, name := n, email := e, third_party_id := subject }) := by
      simp [findOrCreate, hnone]
    have hfind1 : findUser
        { users := d.users ++
            [{ id := d.nextId, name := n, email := e, third_party_id := subject }],
          nextId := d.nextId + 1 } subject =
        some { id := d.nextId, name := n, email := e, third_party_id := subject } := by
      unfold findUser at hnone ⊢
      simp only [List.find?_append, hnone, Option.none_or]
      simp
    have hrest := runLogins_of_found _ subject _ rest hfind1
    have hrun : runLogins d subject ((n, e) :: rest) =
        ({ users := d.users ++
            [{ id := d.nextId, name := n, email := e, third_party_id := subject }],
           nextId := d.nextId + 1 },
         { id := d.nextId, name := n, email := e, third_party_id := subject } ::
           rest.map fun _ =>
             { id := d.nextId, name := n, email := e, third_party_id := subject }) := by
      simp [runLogins, hfc, hrest]
    rw [hrun]
    have hfilter0 : d.users.filter (fun u => u.third_party_id = subject) = [] := by
      apply List.filter_eq_nil_iff.mpr
      intro u hu
      have := List.find?_eq_none.mp hnone u hu
      simpa using this
    refine ⟨?_, by simp, ?_⟩
    · simp [List.filter_append, hfilter0]
    · intro u hu
      simp only [List.mem_cons, List.mem_map] at hu
      rcases hu with h | ⟨x, _, h⟩
      · rw [h]
      · rw [← h]

/-- Witness for C3: two simultaneous first logins with subject g-123
on an empty directory. -/
theorem findOrCreate_concurrent_witness :
    ((runLogins { users := [], nextId := 1 } "g-123"
        [("n1", "e1"), ("n2", "e2")]).1.users.filter
        (fun u => u.third_party_id = "g-123")).length = 1 ∧
    (runLogins { users := [], nextId := 1 } "g-123"
        [("n1", "e1"), ("n2", "e2")]).1.users.length = 0 + 1 ∧
    ∀ u ∈ (runLogins { users := [], nextId := 1 } "g-123"
        [("n1", "e1"), ("n2", "e2")]).2, u.id = 1 := by
  have h := findOrCreate_concurrent { users := [], nextId := 1 } "g-123"
    [("n1", "e1"), ("n2", "e2")] (by decide) (by decide)
  exact h

/-- C4: a login whose assertion carries an audience claim different
from the deployment audience fails with InvalidAssertion and leaves
the User Directory unchanged — no User record is created. -/
theorem audience_mismatch_rejected (deployAud : String) (now key ttl : Nat)
    (d : Directory) (a : Assertion) (h : a.audience ≠ deployAud) :
    (loginGateway deployAud now key ttl d a).1 = d ∧
    (loginGateway deployAud now key ttl d a).2 = .error .invalidAssertion := by
  have hv : verify deployAud now a = .error .invalidAssertion := by
    unfold verify
    cases hs : a.sigValid
    · simp
    · simp [hs, h]
  simp [loginGateway, hv]

/-- Witness for C4: deployment audience aud-1, assertion audience
aud-2, on a singleton directory. -/
theorem audience_mismatch_rejected_witness :
    (loginGateway "aud-1" 0 1 10
      { users := [{ id := 1, name := "A", email := "a@x", third_party_id := "ga" }],
        nextId := 2 }
      { subject := "gb", name := "B", email := "b@x", audience := "aud-2",
        expires_at := 100, sigValid := true }).1 =
      { users := [{ id := 1, name := "A", email := "a@x", third_party_id := "ga" }],
        nextId := 2 } ∧
    (loginGateway "aud-1" 0 1 10
      { users := [{ id := 1, name := "A", email := "a@x", third_party_id := "ga" }],
        nextId := 2 }
      { subject := "gb", name := "B", email := "b@x", audience := "aud-2",
        expires_at := 100, sigValid := true }).2 = .error .invalidAssertion := by
  have h := audience_mismatch_rejected "aud-1" 0 1 10
    { users := [{ id := 1, name := "A", email := "a@x", third_party_id := "ga" }],
      nextId := 2 }
    { subject := "gb", name := "B", email := "b@x", audience := "aud-2",
      expires_at := 100, sigValid := true }
    (by decide)
  exact h

/-- C5: when the storage write succeeds but the metadata create
fails, the upload reports an error to the caller, no FileRecord
referencing the written blob exists afterwards (given the key was
fresh), the compensating delete removes the blob when it succeeds,
and a failed delete logs the orphan key instead of dropping it. -/
theorem upload_metadata_failure_compensation (st : Storage) (m : MetaStore)
    (user : User) (key : String) (bytes : List Nat) (md : FileMeta)
    (deleteFails : Bool)
    (hkey : ∀ r ∈ m.records, r.storage_key ≠ key) :
    (uploadWithMetaFailure st m user key bytes md true deleteFails).result
        = .error .storeUnavailable ∧
    (∀ r ∈ (uploadWithMetaFailure st m user key bytes md true
        deleteFails).meta.records, r.storage_key ≠ key) ∧
    (deleteFails = false →
      getBlob (uploadWithMetaFailure st m user key bytes md true
        deleteFails).storage key = none) ∧
    (deleteFails = true →
      key ∈ (uploadWithMetaFailure st m user key bytes md true
        deleteFails).orphansLogged) := by
  cases deleteFails with
  | false =>
    refine ⟨by simp [uploadWithMetaFailure], ?_, ?_, ?_⟩
    · intro r hr
      exact hkey r (by simpa [uploadWithMetaFailure] using hr)
    · intro _
      simp only [uploadWithMetaFailure, if_pos, Bool.false_eq_true, if_neg]
      exact getBlob_delete (putBlob st key bytes) key
    · intro h
      exact absurd h (by decide)
  | true =>
    refine ⟨by simp [uploadWithMetaFailure], ?_, ?_, ?_⟩
    · intro r hr
      exact hkey r (by simpa [uploadWithMetaFailure] using hr)
    · intro h
      exact absurd h (by decide)
    · intro _
      simp [uploadWithMetaFailure]

/-- Witness for C5: a failed metadata create on an empty store, with
both the succeeding and the failing compensating delete. -/
theorem upload_metadata_failure_compensation_witness :
    getBlob (uploadWithMetaFailure { blobs := [] }
        { records := [], nextId := 1 }
        { id := 1, name := "A", email := "a@x", third_party_id := "ga" }
        "k1" [7] { filename := "f", size := 1, content_type := "t",
                   upload_time := 0 } true false).storage "k1" = none ∧
    "k1" ∈ (uploadWithMetaFailure { blobs := [] }
        { records := [], nextId := 1 }
        { id := 1, name := "A", email := "a@x", third_party_id := "ga" }
        "k1" [7] { filename := "f", size := 1, content_type := "t",
                   upload_time := 0 } true true).orphansLogged := by
  have h1 := upload_metadata_failure_compensation { blobs := [] }
    { records := [], nextId := 1 }
    { id := 1, name := "A", email := "a@x", third_party_id := "ga" }
    "k1" [7] { filename := "f", size := 1, content_type := "t", upload_time := 0 }
    false (by simp)
  have h2 := upload_metadata_failure_compensation { blobs := [] }
    { records := [], nextId := 1 }
    { id := 1, name := "A", email := "a@x", third_party_id := "ga" }
    "k1" [7] { filename := "f", size := 1, content_type := "t", upload_time := 0 }
    true (by simp)
  exact ⟨h1.2.2.1 rfl, h2.2.2.2 rfl⟩

/-- C6: uploading a file and immediately downloading the resulting
record as the same user returns exactly the uploaded bytes, and the
record carries the filename, size and content_type recorded at
upload, owned by the uploader. -/
theorem upload_download_roundtrip (st : Storage) (m : MetaStore)
    (user : User) (key : String) (bytes : List Nat) (md : FileMeta)
    (hfresh : ∀ r ∈ m.records, r.id < m.nextId) :
    download (upload st m user key bytes md).1
        (upload st m user key bytes md).2.1 user
        (upload st m user key bytes md).2.2.id
      = .ok (bytes, (upload st m user key bytes md).2.2) ∧
    (upload st m user key bytes md).2.2.filename = md.filename ∧
    (upload st m user key bytes md).2.2.size = md.size ∧
    (upload st m user key bytes md).2.2.content_type = md.content_type ∧
    (upload st m user key bytes md).2.2.owner_id = user.id := by
  have hprefix : m.records.find? (fun r => r.id = m.nextId) = none := by
    apply List.find?_eq_none.mpr
    intro r hr
    have := hfresh r hr
    simp
    omega
  have hget : getById (upload st m user key bytes md).2.1
      (upload st m user key bytes md).2.2.id
      = some (upload st m user key bytes md).2.2 := by
    simp only [upload, createRecord, getById]
    simp only [List.find?_append, hprefix, Option.none_or]
    simp
  refine ⟨?_, rfl, rfl, rfl, rfl⟩
  simp only [download, hget]
  have hblob : getBlob (upload st m user key bytes md).1
      (upload st m user key bytes md).2.2.storage_key = some bytes := by
    simp [upload, putBlob, createRecord, getBlob]
  simp [hblob]
  simp [upload, createRecord]

/-- Witness for C6: upload of two bytes to an empty system and
immediate download by the same user. -/
theorem upload_download_roundtrip_witness :
    download (upload { blobs := [] } { records := [], nextId := 1 }
        { id := 1, name := "A", email := "a@x", third_party_id := "ga" }
        "k1" [3, 4] { filename := "f", size := 2, content_type := "t",
                      upload_time := 5 }).1
      (upload { blobs := [] } { records := [], nextId := 1 }
        { id := 1, name := "A", email := "a@x", third_party_id := "ga" }
        "k1" [3, 4] { filename := "f", size := 2, content_type := "t",
                      upload_time := 5 }).2.1
      { id := 1, name := "A", email := "a@x", third_party_id := "ga" }
      (upload { blobs := [] } { records := [], nextId := 1 }
        { id := 1, name := "A", email := "a@x", third_party_id := "ga" }
        "k1" [3, 4] { filename := "f", size := 2, content_type := "t",
                      upload_time := 5 }).2.2.id
      = .ok ([3, 4],
        (upload { blobs := [] } { records := [], nextId := 1 }
          { id := 1, name := "A", email := "a@x", third_party_id := "ga" }
          "k1" [3, 4] { filename := "f", size := 2, content_type := "t",
                        upload_time := 5 }).2.2) := by
  have h := upload_download_roundtrip { blobs := [] }
    { records := [], nextId := 1 }
    { id := 1, name := "A", email := "a@x", third_party_id := "ga" }
    "k1" [3, 4] { filename := "f", size := 2, content_type := "t",
                  upload_time := 5 }
    (by simp)
  exact h.1

/-- C7: every login the client performs is a POST to /login whose
body is the single field carrying the identity assertion (the Google
credential), and when the response reports success the client stores
the returned token and user as its session credential, both in its
reactive state and in localStorage. -/
theorem login_post_shape (s : ClientState) (credential : String)
    (outcome : LoginOutcome) :
    (handleCredentialResponse s credential outcome).1 =
      { method := "POST", path := "/login",
        body := [("google_token", credential)] } ∧
    ∀ data, outcome = .ok data → data.success = true →
      ((handleCredentialResponse s credential outcome).2.authToken
          = some data.token ∧
       (handleCredentialResponse s credential outcome).2.currentUser
          = some data.user ∧
       (handleCredentialResponse s credential outcome).2.isAuthenticated
          = true ∧
       (handleCredentialResponse s credential outcome).2.storedAuthToken
          = some data.token) := by
  refine ⟨rfl, ?_⟩
  intro data hout hsucc
  subst hout
  simp [handleCredentialResponse, hsucc]

/-- Witness for C7: a successful login response with token t and a
concrete user. -/
theorem login_post_shape_witness :
    (handleCredentialResponse
      { authToken := none, currentUser := none, isAuthenticated := false,
        isLoading := false, authError := "", storedAuthToken := none }
      "cred"
      (.ok { success := true, token := "t",
             user := { id := 1, name := "A", email := "a@x" },
             message := none })).2.authToken = some "t" := by
  have h := login_post_shape
    { authToken := none, currentUser := none, isAuthenticated := false,
      isLoading := false, authError := "", storedAuthToken := none }
    "cred"
    (.ok { success := true, token := "t",
           user := { id := 1, name := "A", email := "a@x" },
           message := none })
  exact (h.2 { success := true, token := "t",
               user := { id := 1, name := "A", email := "a@x" },
               message := none } rfl rfl).1

/-- C8 counterexample: the claim says logout sends no request to the
server, but the source logout ends in window.location.reload (a page
refresh), so a logout from a concrete signed-in state does trigger a
request — the page GET — and the emitted request list is nonempty. -/
theorem logout_sends_reload_request :
    (logout { authToken := some "t",
              currentUser := some { id := 1, name := "A", email := "a@x" },
              isAuthenticated := true, isLoading := false, authError := "",
              storedAuthToken := some "t" }).2 ≠ [] := by decide

/-- C8 amended: logout discards the client-held credential (token
ref, user, persisted localStorage entry) and performs no API call —
the only request it triggers is the page-reload GET, an
unauthenticated navigation with no body and no credential field that
changes no server-side state — and, since validation consults no
revocation state, a previously issued token still validates to its
subject at any instant before its natural expiry. -/
theorem logout_discards_credential_client_side (s : ClientState) :
    (logout s).2 = [pageReload] ∧
    (logout s).1.authToken = none ∧
    (logout s).1.currentUser = none ∧
    (logout s).1.isAuthenticated = false ∧
    (logout s).1.storedAuthToken = none ∧
    (∀ key ttl uid iat now, now < iat + ttl →
      validate key (issue key ttl uid iat) now = .ok uid) := by
  exact ⟨rfl, rfl, rfl, rfl, rfl,
    fun key ttl uid iat now h => validate_issue_of_lt key ttl uid iat now h⟩

/-- Witness for C8: logging out of a concrete signed-in state emits
only the page-reload GET, and a token issued earlier still
validates. -/
theorem logout_discards_credential_client_side_witness :
    (logout { authToken := some "t",
              currentUser := some { id := 1, name := "A", email := "a@x" },
              isAuthenticated := true, isLoading := false, authError := "",
              storedAuthToken := some "t" }).2 = [pageReload] ∧
    validate 2 (issue 2 5 3 0) 1 = .ok 3 := by
  have h := logout_discards_credential_client_side
    { authToken := some "t",
      currentUser := some { id := 1, name := "A", email := "a@x" },
      isAuthenticated := true, isLoading := false, authError := "",
      storedAuthToken := some "t" }
  exact ⟨h.1, h.2.2.2.2.2 2 5 3 0 1 (by decide)⟩

/-- C10: validateEnvironment throws exactly when the sole required
variable VITE_API_BASE_URL is absent or falsy, and returns normally
when it is set to a truthy value, whatever the optional variables
hold; being a pure function of the environment it modifies no state. -/
theorem validateEnvironment_spec (env : String → Option String) :
    (truthy (env "VITE_API_BASE_URL") = true →
      validateEnvironment env = .ok ()) ∧
    (truthy (env "VITE_API_BASE_URL") = false →
      validateEnvironment env =
        .error "Missing required environment variables: VITE_API_BASE_URL") := by
  constructor
  · intro h
    simp [validateEnvironment, requiredEnvVars, h]
  · intro h
    have : validateEnvironment env =
        .error ("Missing required environment variables: " ++
          String.intercalate ", " ["VITE_API_BASE_URL"]) := by
      simp [validateEnvironment, requiredEnvVars, h]
    rw [this]
    rfl

/-- Witness for C10: a truthy base URL passes; an absent one throws
naming the variable. -/
theorem validateEnvironment_spec_witness :
    validateEnvironment (fun _ => some "https://dochelp.pro/api") = .ok () ∧
    validateEnvironment (fun _ => none) =
      .error "Missing required environment variables: VITE_API_BASE_URL" := by
  have h1 := validateEnvironment_spec (fun _ => some "https://dochelp.pro/api")
  have h2 := validateEnvironment_spec (fun _ => none)
  exact ⟨h1.1 (by decide), h2.2 (by decide)⟩
